import Mathlib

/-!
Verification of the cube-sphere halo-exchange engine
(`src/JAX-DevLab-Examples.py`).

A tile grid of interior resolution `N` (an `(N+2) × (N+2)` array with a
one-cell halo border) is embedded as a function `Nat → Nat → Int` from
(row, column) indices to cell values; row 0 is the north halo row, row 1
the top interior row, column 0 the west halo column, and so on.  A HaloField
is the list of the 6 tile grids.  The fallible Python functions (those
that can raise) return `Option`; `jax.jit` wrapping and printing are
identity/no-ops and are not modelled.

`extract_boundary_data` and `set_ghost_data` are called by the source but
their definitions are not present in `src/`; they are modelled from the
spec (section 4.1), as marked on their doc comments.
-/

abbrev Grid := Nat → Nat → Int

abbrev HaloField := List Grid

abbrev Adjacency := (Nat × String) × (Nat × String) × String

abbrev Stage := List Adjacency

abbrev Schedule := List Stage

/-- Default grid used when indexing a HaloField out of range (never reached on
well-formed 6-tile Fields). -/
def dG : Grid := fun _ _ => 0

/-- Embedding of `create_communication_schedule`: 12 buffer swaps in 4
stages, format `((face_a, edge_a), (face_b, edge_b), operations)`. -/
def create_communication_schedule : Schedule :=
  [ -- Stage 0
    [ ((0, "N"), (1, "N"), "R"),
      ((3, "E"), (4, "W"), "N"),
      ((2, "S"), (5, "E"), "TR") ],
    -- Stage 1
    [ ((0, "E"), (4, "N"), "T"),
      ((2, "E"), (3, "W"), "N"),
      ((1, "S"), (5, "N"), "N") ],
    -- Stage 2
    [ ((0, "W"), (2, "N"), "TR"),
      ((1, "W"), (4, "E"), "N"),
      ((3, "S"), (5, "S"), "R") ],
    -- Stage 3
    [ ((0, "S"), (3, "N"), "N"),
      ((1, "E"), (2, "W"), "N"),
      ((4, "S"), (5, "W"), "T") ] ]

/-- Embedding of `apply_operations`: apply transpose and/or reverse
operations to boundary data.  The Python `raise ValueError` branch is
modelled as `none`. -/
def apply_operations (data : List Int) (operations : String) : Option (List Int) :=
  if operations = "N" then some data
  else if operations = "T" then some data
  else if operations = "R" then some data.reverse
  else if operations = "TR" then some data.reverse
  else none

/-- North boundary: the top interior row (row 1, columns 1..N). -/
def extractN (g : Grid) (N : Nat) : List Int :=
  (List.range N).map (fun j => g 1 (j + 1))

/-- South boundary: the bottom interior row (row N, columns 1..N). -/
def extractS (g : Grid) (N : Nat) : List Int :=
  (List.range N).map (fun j => g N (j + 1))

/-- East boundary: the rightmost interior column (column N, rows 1..N). -/
def extractE (g : Grid) (N : Nat) : List Int :=
  (List.range N).map (fun i => g (i + 1) N)

/-- West boundary: the leftmost interior column (column 1, rows 1..N). -/
def extractW (g : Grid) (N : Nat) : List Int :=
  (List.range N).map (fun i => g (i + 1) 1)

/-- Modelled from the spec: `extract(tile_grid, edge, N)` of section 4.1
(the source calls `extract_boundary_data`, whose definition is missing
from `src/`): returns the outermost interior row/column at `edge`,
excluding existing halo cells, with the direction-to-axis mapping
N = top interior row, S = bottom, E = rightmost column, W = leftmost. -/
def extract_boundary_data (tile_grid : Grid) (edge : String) (N : Nat) : List Int :=
  if edge = "N" then extractN tile_grid N
  else if edge = "S" then extractS tile_grid N
  else if edge = "E" then extractE tile_grid N
  else if edge = "W" then extractW tile_grid N
  else []

/-- Write the north halo row (row 0, columns 1..N); corners untouched. -/
def setGhostN (g : Grid) (data : List Int) (N : Nat) : Grid :=
  fun i j => if i = 0 ∧ 1 ≤ j ∧ j ≤ N then data.getD (j - 1) 0 else g i j

/-- Write the south halo row (row N+1, columns 1..N); corners untouched. -/
def setGhostS (g : Grid) (data : List Int) (N : Nat) : Grid :=
  fun i j => if i = N + 1 ∧ 1 ≤ j ∧ j ≤ N then data.getD (j - 1) 0 else g i j

/-- Write the east halo column (column N+1, rows 1..N); corners untouched. -/
def setGhostE (g : Grid) (data : List Int) (N : Nat) : Grid :=
  fun i j => if j = N + 1 ∧ 1 ≤ i ∧ i ≤ N then data.getD (i - 1) 0 else g i j

/-- Write the west halo column (column 0, rows 1..N); corners untouched. -/
def setGhostW (g : Grid) (data : List Int) (N : Nat) : Grid :=
  fun i j => if j = 0 ∧ 1 ≤ i ∧ i ≤ N then data.getD (i - 1) 0 else g i j

/-- Modelled from the spec: `write_ghost(tile_grid, edge, data, N)` of
section 4.1 (the source calls `set_ghost_data`, whose definition is
missing from `src/`): returns a grid with the halo cells just outside
`edge` replaced by `data`; interior and other halo cells unchanged,
corners untouched. -/
def set_ghost_data (tile_grid : Grid) (edge : String) (data : List Int) (N : Nat) : Grid :=
  if edge = "N" then setGhostN tile_grid data N
  else if edge = "S" then setGhostS tile_grid data N
  else if edge = "E" then setGhostE tile_grid data N
  else if edge = "W" then setGhostW tile_grid data N
  else tile_grid

/-- Embedding of `exchange_edge_pair`: bidirectional exchange between two
edges.  Mirrors the source exactly: extract both boundaries, apply the
operations, then write tile `face_b` and then tile `face_a` (the second
write reads the once-updated field, as the Python rebinding does). -/
def exchange_edge_pair (field_ghosts : HaloField) (face_a : Nat) (edge_a : String)
    (face_b : Nat) (edge_b : String) (operations : String) (N : Nat) :
    Option HaloField := do
  let data_a := extract_boundary_data (field_ghosts.getD face_a dG) edge_a N
  let data_b := extract_boundary_data (field_ghosts.getD face_b dG) edge_b N
  let data_to_b ← apply_operations data_a operations
  let data_to_a ← apply_operations data_b operations
  let f1 := field_ghosts.set face_b
    (set_ghost_data (field_ghosts.getD face_b dG) edge_b data_to_b N)
  let f2 := f1.set face_a
    (set_ghost_data (f1.getD face_a dG) edge_a data_to_a N)
  return f2

/-- Embedding of `make_halo_exchange`: builds the list of per-adjacency
exchange closures with the static arguments frozen (`functools.partial`),
in stage-then-adjacency order, and returns the composed function that
applies them sequentially.  `jax.jit` is the identity in this model; the
factory performs no validation of the schedule. -/
def make_halo_exchange (schedule : Schedule) (N : Nat) : HaloField → Option HaloField :=
  let exchange_functions : List (HaloField → Option HaloField) :=
    (schedule.map (fun stage => stage.map (fun adj => fun field_ghosts =>
      exchange_edge_pair field_ghosts adj.1.1 adj.1.2 adj.2.1.1 adj.2.1.2 adj.2.2 N))).flatten
  fun field_ghosts => exchange_functions.foldlM (fun f fn => fn f) field_ghosts

/-- Sequential application of a list of adjacencies (one stage, or any
reordering of one) by `exchange_edge_pair`, exactly as the composed
exchange function applies them. -/
def run_adjacencies (adjs : Stage) (N : Nat) (f : HaloField) : Option HaloField :=
  adjs.foldlM (fun fld adj =>
    exchange_edge_pair fld adj.1.1 adj.1.2 adj.2.1.1 adj.2.1.2 adj.2.2 N) f

/-- One pairwise exchange with the operation tag already resolved
(`rev = true` for the reversing tags `R`/`TR`, `false` for `N`/`T`);
definitionally equal to the successful run of `exchange_edge_pair`. -/
def pure_swap (face_a : Nat) (edge_a : String) (face_b : Nat) (edge_b : String)
    (rev : Bool) (N : Nat) (field_ghosts : HaloField) : HaloField :=
  let data_a := extract_boundary_data (field_ghosts.getD face_a dG) edge_a N
  let data_b := extract_boundary_data (field_ghosts.getD face_b dG) edge_b N
  let data_to_b := cond rev data_a.reverse data_a
  let data_to_a := cond rev data_b.reverse data_b
  let f1 := field_ghosts.set face_b
    (set_ghost_data (field_ghosts.getD face_b dG) edge_b data_to_b N)
  f1.set face_a (set_ghost_data (f1.getD face_a dG) edge_a data_to_a N)

/-- The full 12-exchange pipeline of the hardcoded schedule as a pure
function (first adjacency of stage 0 applied first, innermost). -/
def run_schedule (N : Nat) (f : HaloField) : HaloField :=
  pure_swap 4 "S" 5 "W" false N
    (pure_swap 1 "E" 2 "W" false N
      (pure_swap 0 "S" 3 "N" false N
        (pure_swap 3 "S" 5 "S" true N
          (pure_swap 1 "W" 4 "E" false N
            (pure_swap 0 "W" 2 "N" true N
              (pure_swap 1 "S" 5 "N" false N
                (pure_swap 2 "E" 3 "W" false N
                  (pure_swap 0 "E" 4 "N" false N
                    (pure_swap 2 "S" 5 "E" true N
                      (pure_swap 3 "E" 4 "W" false N
                        (pure_swap 0 "N" 1 "N" true N f)))))))))))

/-- The two (tile, edge) endpoints of one adjacency. -/
def adjacency_endpoints (adj : Adjacency) : List (Nat × String) :=
  [adj.1, adj.2.1]

/-- All (tile, edge) endpoints of one stage, in order. -/
def stage_endpoints (st : Stage) : List (Nat × String) :=
  (st.map adjacency_endpoints).flatten

/-- All (tile, edge) endpoints of the whole schedule, in order. -/
def schedule_endpoints : List (Nat × String) :=
  (create_communication_schedule.map stage_endpoints).flatten

/-- The 24 (tile, edge) pairs with tile in 0..5 and edge in N/E/S/W. -/
def all_endpoints : List (Nat × String) :=
  ((List.range 6).map (fun t => [(t, "N"), (t, "E"), (t, "S"), (t, "W")])).flatten

/-- The hardcoded schedule with its last adjacency `((4,S),(5,W),T)`
removed: a malformed schedule missing one adjacency. -/
def truncated_schedule : Schedule :=
  [ [ ((0, "N"), (1, "N"), "R"),
      ((3, "E"), (4, "W"), "N"),
      ((2, "S"), (5, "E"), "TR") ],
    [ ((0, "E"), (4, "N"), "T"),
      ((2, "E"), (3, "W"), "N"),
      ((1, "S"), (5, "N"), "N") ],
    [ ((0, "W"), (2, "N"), "TR"),
      ((1, "W"), (4, "E"), "N"),
      ((3, "S"), (5, "S"), "R") ],
    [ ((0, "S"), (3, "N"), "N"),
      ((1, "E"), (2, "W"), "N") ] ]

/-- Tile 0 of the spec scenario: interior north row (row 1) is 1,2,3,4. -/
def g0_demo : Grid :=
  fun i j => if i = 1 ∧ 1 ≤ j ∧ j ≤ 4 then (j : Int) else 0

/-- Tile 1 of the spec scenario: interior north row (row 1) is 5,6,7,8. -/
def g1_demo : Grid :=
  fun i j => if i = 1 ∧ 1 ≤ j ∧ j ≤ 4 then (j : Int) + 4 else 0

/-- The scenario HaloField for N = 4: tiles 0 and 1 as above, rest zero. -/
def demo_field : HaloField := [g0_demo, g1_demo, dG, dG, dG, dG]

/-- Read the north halo row (row 0, columns 1..4) of tile `t`. -/
def north_halo (f : HaloField) (t : Nat) : List Int :=
  (List.range 4).map (fun j => (f.getD t dG) 0 (j + 1))

/-- A HaloField of six all-zero tiles, used as a concrete well-formed input. -/
def zero_field : HaloField := [dG, dG, dG, dG, dG, dG]

/-- Modelled from the spec: the call-time `ShapeError` of section 7 (no
error type for this appears in `src/`). -/
inductive ShapeError
  | mismatch

/-- One tile grid, as a sized array of rows, has shape (N+2) × (N+2). -/
def tile_grid_shape_ok (N : Nat) (g : List (List Int)) : Bool :=
  g.length == N + 2 && g.all (fun row => row.length == N + 2)

/-- A sized HaloField has 6 tiles, each of shape (N+2) × (N+2). -/
def field_shape_ok (N : Nat) (f : List (List (List Int))) : Bool :=
  f.length == 6 && f.all (tile_grid_shape_ok N)

/-- View a sized tile grid as a total grid function (0 outside). -/
def toGrid (g : List (List Int)) : Grid :=
  fun i j => (g.getD i []).getD j 0

/-- Modelled from the spec: the built exchange function guarded by the
call-time shape check of section 7 — a HaloField with tile count different
from 6 or per-tile grid shape inconsistent with the `N` baked in at
build time is signaled as `ShapeError`; a well-formed HaloField is run
through the schedule (the pipeline `run_schedule`, which by
`make_halo_exchange_run` is exactly what `make_halo_exchange` builds). -/
def exchange_fn_checked (N : Nat) (f : List (List (List Int))) :
    Except ShapeError HaloField :=
  if field_shape_ok N f then Except.ok (run_schedule N (f.map toGrid))
  else Except.error ShapeError.mismatch

/-- A concrete well-formed sized HaloField for N = 1: six 3 × 3 zero tiles. -/
def zero_sized_field : List (List (List Int)) :=
  List.replicate 6 (List.replicate 3 (List.replicate 3 0))

/-!  Helper lemmas: indexing a 6-element HaloField literal. -/

theorem getD6_0 (a b c d e f : Grid) (x : Grid) : [a, b, c, d, e, f].getD 0 x = a := rfl

theorem getD6_1 (a b c d e f : Grid) (x : Grid) : [a, b, c, d, e, f].getD 1 x = b := rfl

theorem getD6_2 (a b c d e f : Grid) (x : Grid) : [a, b, c, d, e, f].getD 2 x = c := rfl

theorem getD6_3 (a b c d e f : Grid) (x : Grid) : [a, b, c, d, e, f].getD 3 x = d := rfl

theorem getD6_4 (a b c d e f : Grid) (x : Grid) : [a, b, c, d, e, f].getD 4 x = e := rfl

theorem getD6_5 (a b c d e f : Grid) (x : Grid) : [a, b, c, d, e, f].getD 5 x = f := rfl

theorem set6_0 (a b c d e f : Grid) (x : Grid) : [a, b, c, d, e, f].set 0 x = [x, b, c, d, e, f] := rfl

theorem set6_1 (a b c d e f : Grid) (x : Grid) : [a, b, c, d, e, f].set 1 x = [a, x, c, d, e, f] := rfl

theorem set6_2 (a b c d e f : Grid) (x : Grid) : [a, b, c, d, e, f].set 2 x = [a, b, x, d, e, f] := rfl

theorem set6_3 (a b c d e f : Grid) (x : Grid) : [a, b, c, d, e, f].set 3 x = [a, b, c, x, e, f] := rfl

theorem set6_4 (a b c d e f : Grid) (x : Grid) : [a, b, c, d, e, f].set 4 x = [a, b, c, d, x, f] := rfl

theorem set6_5 (a b c d e f : Grid) (x : Grid) : [a, b, c, d, e, f].set 5 x = [a, b, c, d, e, x] := rfl

/-!  Helper lemmas: dispatch of the compass-string interface onto the
per-edge functions. -/

theorem extract_dispatchN (g : Grid) (N : Nat) :
    extract_boundary_data g ("N") N = extractN g N := rfl

theorem extract_dispatchS (g : Grid) (N : Nat) :
    extract_boundary_data g ("S") N = extractS g N := rfl

theorem extract_dispatchE (g : Grid) (N : Nat) :
    extract_boundary_data g ("E") N = extractE g N := rfl

theorem extract_dispatchW (g : Grid) (N : Nat) :
    extract_boundary_data g ("W") N = extractW g N := rfl

theorem set_ghost_dispatchN (g : Grid) (d : List Int) (N : Nat) :
    set_ghost_data g ("N") d N = setGhostN g d N := rfl

theorem set_ghost_dispatchS (g : Grid) (d : List Int) (N : Nat) :
    set_ghost_data g ("S") d N = setGhostS g d N := rfl

theorem set_ghost_dispatchE (g : Grid) (d : List Int) (N : Nat) :
    set_ghost_data g ("E") d N = setGhostE g d N := rfl

theorem set_ghost_dispatchW (g : Grid) (d : List Int) (N : Nat) :
    set_ghost_data g ("W") d N = setGhostW g d N := rfl

/-!  Helper lemmas: boundary extraction reads only interior cells, so it
is unchanged by any ghost write (16 edge pairs). -/

theorem extractN_setGhostN (g : Grid) (d : List Int) (N : Nat) :
    extractN (setGhostN g d N) N = extractN g N := by
  simp only [extractN, setGhostN]
  refine List.map_congr_left (fun j hj => ?_)
  exact if_neg (by omega)

theorem extractN_setGhostS (g : Grid) (d : List Int) (N : Nat) :
    extractN (setGhostS g d N) N = extractN g N := by
  simp only [extractN, setGhostS]
  refine List.map_congr_left (fun j hj => ?_)
  rw [List.mem_range] at hj
  exact if_neg (by omega)

theorem extractN_setGhostE (g : Grid) (d : List Int) (N : Nat) :
    extractN (setGhostE g d N) N = extractN g N := by
  simp only [extractN, setGhostE]
  refine List.map_congr_left (fun j hj => ?_)
  rw [List.mem_range] at hj
  exact if_neg (by omega)

theorem extractN_setGhostW (g : Grid) (d : List Int) (N : Nat) :
    extractN (setGhostW g d N) N = extractN g N := by
  simp only [extractN, setGhostW]
  refine List.map_congr_left (fun j hj => ?_)
  exact if_neg (by omega)

theorem extractS_setGhostN (g : Grid) (d : List Int) (N : Nat) :
    extractS (setGhostN g d N) N = extractS g N := by
  simp only [extractS, setGhostN]
  refine List.map_congr_left (fun j hj => ?_)
  rw [List.mem_range] at hj
  exact if_neg (by omega)

theorem extractS_setGhostS (g : Grid) (d : List Int) (N : Nat) :
    extractS (setGhostS g d N) N = extractS g N := by
  simp only [extractS, setGhostS]
  refine List.map_congr_left (fun j hj => ?_)
  exact if_neg (by omega)

theorem extractS_setGhostE (g : Grid) (d : List Int) (N : Nat) :
    extractS (setGhostE g d N) N = extractS g N := by
  simp only [extractS, setGhostE]
  refine List.map_congr_left (fun j hj => ?_)
  rw [List.mem_range] at hj
  exact if_neg (by omega)

theorem extractS_setGhostW (g : Grid) (d : List Int) (N : Nat) :
    extractS (setGhostW g d N) N = extractS g N := by
  simp only [extractS, setGhostW]
  refine List.map_congr_left (fun j hj => ?_)
  exact if_neg (by omega)

theorem extractE_setGhostN (g : Grid) (d : List Int) (N : Nat) :
    extractE (setGhostN g d N) N = extractE g N := by
  simp only [extractE, setGhostN]
  refine List.map_congr_left (fun i hi => ?_)
  exact if_neg (by omega)

theorem extractE_setGhostS (g : Grid) (d : List Int) (N : Nat) :
    extractE (setGhostS g d N) N = extractE g N := by
  simp only [extractE, setGhostS]
  refine List.map_congr_left (fun i hi => ?_)
  rw [List.mem_range] at hi
  exact if_neg (by omega)

theorem extractE_setGhostE (g : Grid) (d : List Int) (N : Nat) :
    extractE (setGhostE g d N) N = extractE g N := by
  simp only [extractE, setGhostE]
  refine List.map_congr_left (fun i hi => ?_)
  exact if_neg (by omega)

theorem extractE_setGhostW (g : Grid) (d : List Int) (N : Nat) :
    extractE (setGhostW g d N) N = extractE g N := by
  simp only [extractE, setGhostW]
  refine List.map_congr_left (fun i hi => ?_)
  rw [List.mem_range] at hi
  exact if_neg (by omega)

theorem extractW_setGhostN (g : Grid) (d : List Int) (N : Nat) :
    extractW (setGhostN g d N) N = extractW g N := by
  simp only [extractW, setGhostN]
  refine List.map_congr_left (fun i hi => ?_)
  exact if_neg (by omega)

theorem extractW_setGhostS (g : Grid) (d : List Int) (N : Nat) :
    extractW (setGhostS g d N) N = extractW g N := by
  simp only [extractW, setGhostS]
  refine List.map_congr_left (fun i hi => ?_)
  rw [List.mem_range] at hi
  exact if_neg (by omega)

theorem extractW_setGhostE (g : Grid) (d : List Int) (N : Nat) :
    extractW (setGhostE g d N) N = extractW g N := by
  simp only [extractW, setGhostE]
  refine List.map_congr_left (fun i hi => ?_)
  rw [List.mem_range] at hi
  exact if_neg (by omega)

theorem extractW_setGhostW (g : Grid) (d : List Int) (N : Nat) :
    extractW (setGhostW g d N) N = extractW g N := by
  simp only [extractW, setGhostW]
  refine List.map_congr_left (fun i hi => ?_)
  exact if_neg (by omega)

/-!  Helper lemmas: general facts. -/

theorem field_six (f : HaloField) (h : f.length = 6) :
    ∃ a b c d e g, f = [a, b, c, d, e, g] := by
  rcases f with _ | ⟨a, _ | ⟨b, _ | ⟨c, _ | ⟨d, _ | ⟨e, _ | ⟨g, _ | ⟨x, t⟩⟩⟩⟩⟩⟩⟩ <;>
    first
      | exact ⟨_, _, _, _, _, _, rfl⟩
      | simp_all

theorem perm_three {α : Type} {p : List α} {a b c : α} (hp : p.Perm [a, b, c]) :
    p = [a, b, c] ∨ p = [b, a, c] ∨ p = [b, c, a] ∨ p = [a, c, b] ∨
    p = [c, a, b] ∨ p = [c, b, a] := by
  have hm : p ∈ ([a, b, c] : List α).permutations' :=
    List.mem_permutations'.mpr hp
  have he : ([a, b, c] : List α).permutations' =
      [[a, b, c], [b, a, c], [b, c, a], [a, c, b], [c, a, b], [c, b, a]] := rfl
  rw [he] at hm
  simpa using hm

/-- The composed exchange built by `make_halo_exchange` from the
hardcoded schedule never fails and equals the pure pipeline
`run_schedule` (all 12 operation tags are in the supported set). -/
theorem make_halo_exchange_run (N : Nat) (f : HaloField) :
    make_halo_exchange create_communication_schedule N f = some (run_schedule N f) := rfl

/-- C1: the schedule returned by `create_communication_schedule` has
exactly 4 stages of 3 adjacencies each, and its 24 (tile, edge)
endpoints are exactly the pairs with tile in 0..5, edge in N/E/S/W,
each appearing in exactly one adjacency. -/
theorem schedule_coverage :
    create_communication_schedule.length = 4 ∧
    create_communication_schedule.all (fun st => st.length == 3) = true ∧
    all_endpoints.all (fun p => schedule_endpoints.count p == 1) = true ∧
    schedule_endpoints.length = 24 := by decide

/-- C2: within every stage of the schedule returned by
`create_communication_schedule`, no (tile, edge) endpoint appears in
more than one adjacency: each stage's endpoint list has no duplicate. -/
theorem stage_endpoint_nodup :
    ∀ st ∈ create_communication_schedule, (stage_endpoints st).Nodup := by decide

theorem stage_endpoint_nodup_witness :
    ([((0, "N"), (1, "N"), "R"), ((3, "E"), (4, "W"), "N"),
      ((2, "S"), (5, "E"), "TR")] ∈ create_communication_schedule) ∧
    (stage_endpoints [((0, "N"), (1, "N"), "R"), ((3, "E"), (4, "W"), "N"),
      ((2, "S"), (5, "E"), "TR")]).Nodup :=
  ⟨by decide, stage_endpoint_nodup _ (by decide)⟩

/-- C3: for N = 4, with tile 0's interior north row 1,2,3,4 and tile 1's
interior north row 5,6,7,8, the exchange for adjacency ((0,N),(1,N))
with the reverse operation fills tile 0's north halo with 8,7,6,5 and
tile 1's north halo with 4,3,2,1. -/
theorem scenario_reverse_exchange :
    (exchange_edge_pair demo_field 0 ("N") 1 ("N") ("R") 4).map
      (fun f => (north_halo f 0, north_halo f 1)) =
    some ([8, 7, 6, 5], [4, 3, 2, 1]) := by decide

/-- C4: for every boundary vector `d` and every supported operation tag,
applying the transform twice returns `d`; the identity tag returns the
input unchanged and the reverse tag returns it with element order
inverted. -/
theorem apply_operations_involution (d : List Int) (op : String) :
    (op ∈ ["N", "T", "R", "TR"] →
      (apply_operations d op).bind (fun x => apply_operations x op) = some d) ∧
    apply_operations d ("N") = some d ∧
    apply_operations d ("R") = some d.reverse := by
  refine ⟨fun hop => ?_, rfl, rfl⟩
  simp only [List.mem_cons, List.not_mem_nil, or_false] at hop
  rcases hop with rfl | rfl | rfl | rfl <;> simp [apply_operations]

theorem apply_operations_involution_witness :
    (("R" : String) ∈ ["N", "T", "R", "TR"]) ∧
    (apply_operations [1, 2] ("R")).bind (fun x => apply_operations x ("R")) = some [1, 2] ∧
    apply_operations [1, 2] ("N") = some [1, 2] ∧
    apply_operations [1, 2] ("R") = some [2, 1] :=
  ⟨by decide, (apply_operations_involution [1, 2] "R").1 (by decide),
    (apply_operations_involution [1, 2] "R").2.1,
    (apply_operations_involution [1, 2] "R").2.2⟩

/-- C5 counterexample: the tag `T` is neither the identity tag `N` nor the
reverse tag `R`, yet `apply_operations` succeeds on it instead of
failing — refuting raises-iff over the tag set consisting of identity
and reverse alone. -/
theorem apply_operations_T_accepted :
    (apply_operations [0] ("T")).isSome = true ∧
    ((("T" : String) == "N") || (("T" : String) == "R")) = false := by decide

/-- C5 amended: `apply_operations` fails exactly when its tag is outside
the four-tag set N, T, R, TR; all four schedule tags succeed (T and TR
alias the identity and reverse behaviors). -/
theorem apply_operations_none_iff (d : List Int) (op : String) :
    (apply_operations d op).isNone =
      !((op == "N") || (op == "T") || (op == "R") || (op == "TR")) := by
  simp only [apply_operations]
  split_ifs with h1 h2 h3 h4 <;> simp_all

/-- C6 counterexample: `make_halo_exchange` applied to a schedule missing
one adjacency does not fail: it builds an exchange function, and that
function processes a concrete well-formed HaloField successfully — no
`ConfigurationError` (or any failure) occurs before a HaloField is
processed. -/
theorem truncated_build_processes_field :
    (make_halo_exchange truncated_schedule 4 zero_field).isSome = true := rfl

/-- C6 amended: neither `create_communication_schedule` nor
`make_halo_exchange` validates the schedule invariants; built from the
schedule missing one adjacency, the exchange function still runs
without error on every HaloField, for every resolution. -/
theorem truncated_build_no_error (N : Nat) (f : HaloField) :
    (make_halo_exchange truncated_schedule N f).isSome = true := rfl

/-- C7: the shape-guarded exchange call (modelled from the spec, the
shape-checking layer being absent from `src/`) succeeds exactly on
Fields passing the shape check (6 tiles, each (N+2) × (N+2)), signals
`ShapeError` exactly otherwise, and on the success path the underlying
`make_halo_exchange` pipeline itself runs without failure. -/
theorem exchange_shape_guard (N : Nat) (f : List (List (List Int))) :
    (exchange_fn_checked N f).isOk = field_shape_ok N f ∧
    (exchange_fn_checked N f = Except.error ShapeError.mismatch ↔
      field_shape_ok N f = false) ∧
    make_halo_exchange create_communication_schedule N (f.map toGrid) =
      some (run_schedule N (f.map toGrid)) := by
  refine ⟨?_, ?_, make_halo_exchange_run N (f.map toGrid)⟩ <;>
    · unfold exchange_fn_checked
      by_cases h : field_shape_ok N f <;> simp [h, Except.isOk, Except.toBool]

/-- C9: for every Field of six tile grids and every stage of the
hardcoded schedule, running that stage's 3 adjacency exchanges
sequentially in any of the 3! internal orders (any permutation of the
stage, stage order fixed) yields an identical resulting Field. -/
theorem stage_order_independent (N : Nat) (g0 g1 g2 g3 g4 g5 : Grid)
    (st : Stage) (hst : st ∈ create_communication_schedule)
    (p : Stage) (hp : p.Perm st) :
    run_adjacencies p N [g0, g1, g2, g3, g4, g5] =
    run_adjacencies st N [g0, g1, g2, g3, g4, g5] := by
  simp only [create_communication_schedule, List.mem_cons, List.not_mem_nil,
    or_false] at hst
  rcases hst with rfl | rfl | rfl | rfl <;>
    rcases perm_three hp with rfl | rfl | rfl | rfl | rfl | rfl <;> rfl

theorem stage_order_independent_witness :
    ([((0, "N"), (1, "N"), "R"), ((3, "E"), (4, "W"), "N"), ((2, "S"), (5, "E"), "TR")]
        ∈ create_communication_schedule) ∧
    (List.Perm
      [((3, "E"), (4, "W"), "N"), ((0, "N"), (1, "N"), "R"), ((2, "S"), (5, "E"), "TR")]
      [((0, "N"), (1, "N"), "R"), ((3, "E"), (4, "W"), "N"), ((2, "S"), (5, "E"), "TR")]) ∧
    run_adjacencies
      [((3, "E"), (4, "W"), "N"), ((0, "N"), (1, "N"), "R"), ((2, "S"), (5, "E"), "TR")] 1
      [dG, dG, dG, dG, dG, dG] =
    run_adjacencies
      [((0, "N"), (1, "N"), "R"), ((3, "E"), (4, "W"), "N"), ((2, "S"), (5, "E"), "TR")] 1
      [dG, dG, dG, dG, dG, dG] :=
  ⟨by decide, by decide,
    stage_order_independent 1 dG dG dG dG dG dG _ (by decide) _ (by decide)⟩

/-- C8: the composed exchange function is idempotent: for every Field of
declared tile count (6 tiles), running the exchange twice gives exactly
the result of running it once — halos are reproduced bit-identically
because each exchange extracts from interiors only and writes halo
cells only. -/
theorem halo_exchange_idempotent (N : Nat) (f : HaloField) (h : f.length = 6) :
    (make_halo_exchange create_communication_schedule N f).bind
      (make_halo_exchange create_communication_schedule N) =
    make_halo_exchange create_communication_schedule N f := by
  obtain ⟨g0, g1, g2, g3, g4, g5, rfl⟩ := field_six f h
  rw [make_halo_exchange_run, Option.some_bind, make_halo_exchange_run]
  refine congrArg some ?_
  simp only [run_schedule, pure_swap, extract_dispatchN, extract_dispatchS,
    extract_dispatchE, extract_dispatchW, set_ghost_dispatchN, set_ghost_dispatchS,
    set_ghost_dispatchE, set_ghost_dispatchW, Bool.cond_true, Bool.cond_false,
    getD6_0, getD6_1, getD6_2, getD6_3, getD6_4, getD6_5,
    set6_0, set6_1, set6_2, set6_3, set6_4, set6_5,
    extractN_setGhostN, extractN_setGhostS, extractN_setGhostE, extractN_setGhostW,
    extractS_setGhostN, extractS_setGhostS, extractS_setGhostE, extractS_setGhostW,
    extractE_setGhostN, extractE_setGhostS, extractE_setGhostE, extractE_setGhostW,
    extractW_setGhostN, extractW_setGhostS, extractW_setGhostE, extractW_setGhostW,
    List.cons.injEq, and_true]
  refine ⟨?_, ?_, ?_, ?_, ?_, ?_⟩ <;>
    · funext i j
      simp only [setGhostN, setGhostS, setGhostE, setGhostW]
      split_ifs <;> rfl

theorem halo_exchange_idempotent_witness :
    zero_field.length = 6 ∧
    (make_halo_exchange create_communication_schedule 1 zero_field).bind
      (make_halo_exchange create_communication_schedule 1) =
    make_halo_exchange create_communication_schedule 1 zero_field :=
  ⟨rfl, halo_exchange_idempotent 1 zero_field rfl⟩
